import Mathlib

/-!
Verification of the financial calculation engine of the lanekalkulator
application (the calculation logic of the `App.js` variants).

Modelling conventions: JavaScript numbers are modelled as exact rationals
(`ℚ`); `Math.pow` is only ever applied to natural exponents here and becomes
`_ ^ (n : ℕ)`.  In `ℚ`, division by zero yields `0`, whereas IEEE doubles
yield `NaN`/`Infinity`; every theorem affected by that distinction points it
out.  JS `for`-loops with an early `break` become structural recursion on the
remaining iteration count.  Mode/structure tags, which the source compares as
strings (`mode === 'oslo'`, `loanType === 'annuity'`), are `String`s.
-/

namespace Lanekalkulator

/-- JS `calculatePropertyTax(propertyValue, mode, customAmount)` (App.js):
guard `propertyValue <= 0` first, then Oslo formula for mode `"oslo"`
(`0.7` valuation ratio, `4 700 000` deduction, `0.00235` rate), any other
mode returns `customAmount`. -/
def calculatePropertyTax (propertyValue : ℚ) (mode : String) (customAmount : ℚ) : ℚ :=
  if propertyValue ≤ 0 then 0
  else if mode = "oslo" then (max 0 (propertyValue * (7/10) - 4700000)) * (235/100000)
  else customAmount

/-- One row of an amortization schedule, JS
`{ month, principal, interest, balance, totalPayment }`. -/
structure AmortizationEntry where
  month : ℕ
  principal : ℚ
  interest : ℚ
  balance : ℚ
  totalPayment : ℚ
  deriving DecidableEq, Repr

/-- Result record of JS `calculateLoanDetails`. -/
structure LoanDetails where
  firstMonthPayment : ℚ
  totalInterestPaid : ℚ
  amortization : List AmortizationEntry
  deriving DecidableEq, Repr

/-- The annuity `for`-loop of `calculateLoanDetails`: month counter `i`,
running `balance`, and the number of remaining iterations as fuel.  Each
iteration breaks on `balance <= 0`, else pays interest `balance * r`,
principal `M - interest`, and records the new balance clamped at `0`
(`balance < 0 ? 0 : balance`). -/
def annuitySteps (r M : ℚ) : ℚ → ℕ → ℕ → List AmortizationEntry
  | _, _, 0 => []
  | balance, i, fuel + 1 =>
    if balance ≤ 0 then []
    else
      (⟨i, M - balance * r, balance * r,
        if balance - (M - balance * r) < 0 then 0 else balance - (M - balance * r), M⟩ :
          AmortizationEntry) ::
        annuitySteps r M (balance - (M - balance * r)) (i + 1) fuel

/-- The serial `for`-loop of `calculateLoanDetails`: fixed principal per month,
interest `balance * r`, total payment `principalPerMonth + interest`. -/
def serialSteps (r principalPerMonth : ℚ) : ℚ → ℕ → ℕ → List AmortizationEntry
  | _, _, 0 => []
  | balance, i, fuel + 1 =>
    if balance ≤ 0 then []
    else
      (⟨i, principalPerMonth, balance * r,
        if balance - principalPerMonth < 0 then 0 else balance - principalPerMonth,
        principalPerMonth + balance * r⟩ : AmortizationEntry) ::
        serialSteps r principalPerMonth (balance - principalPerMonth) (i + 1) fuel

/-- JS closed-form annuity payment
`M = amount * (r * (1+r)^n) / ((1+r)^n - 1)`. -/
def annuityPayment (amount r : ℚ) (n : ℕ) : ℚ :=
  amount * (r * (1 + r) ^ n) / ((1 + r) ^ n - 1)

/-- JS `calculateLoanDetails(amount)` with the captured state
`loanType`, `interestRate`, `loanTerm` made explicit.  Monthly rate is
`interestRate / 100 / 12`, `numberOfPayments = loanTerm * 12`.  Any
`loanType` other than `"annuity"` takes the serial branch (the source has a
bare `else`).  `totalInterestPaid` accumulates the interest of exactly the
pushed rows, i.e. the sum of the `interest` column; serial
`firstMonthPayment` is set during the first executed iteration, i.e. the
`totalPayment` of the first row (or `0` if no row is produced). -/
def calculateLoanDetails (loanType : String) (interestRate : ℚ) (loanTerm : ℕ)
    (amount : ℚ) : LoanDetails :=
  if amount ≤ 0 then ⟨0, 0, []⟩
  else if loanType = "annuity" then
    ⟨annuityPayment amount (interestRate / 100 / 12) (loanTerm * 12),
     ((annuitySteps (interestRate / 100 / 12)
        (annuityPayment amount (interestRate / 100 / 12) (loanTerm * 12))
        amount 1 (loanTerm * 12)).map AmortizationEntry.interest).sum,
     annuitySteps (interestRate / 100 / 12)
        (annuityPayment amount (interestRate / 100 / 12) (loanTerm * 12))
        amount 1 (loanTerm * 12)⟩
  else
    ⟨(((serialSteps (interestRate / 100 / 12) (amount / ((loanTerm * 12 : ℕ) : ℚ))
        amount 1 (loanTerm * 12)).head?).map AmortizationEntry.totalPayment).getD 0,
     ((serialSteps (interestRate / 100 / 12) (amount / ((loanTerm * 12 : ℕ) : ℚ))
        amount 1 (loanTerm * 12)).map AmortizationEntry.interest).sum,
     serialSteps (interestRate / 100 / 12) (amount / ((loanTerm * 12 : ℕ) : ℚ))
        amount 1 (loanTerm * 12)⟩

/-- The balance recurrence of the annuity loop: after paying interest
`balance * r` and principal `M - interest`, the new balance is
`balance * (1 + r) - M`.  `annuityBal r M b j` is the balance at the start of
iteration `j` (0-based) when the loop starts from `b`. -/
def annuityBal (r M b : ℚ) : ℕ → ℚ
  | 0 => b
  | j + 1 => annuityBal r M b j * (1 + r) - M

/-- JS `ownershipValue1 = currentPropertyValue * (ownershipSplit / 100)`. -/
def ownershipValue1 (propertyValue ownershipSplit : ℚ) : ℚ :=
  propertyValue * (ownershipSplit / 100)

/-- JS `ownershipValue2 = currentPropertyValue * ((100 - ownershipSplit) / 100)`. -/
def ownershipValue2 (propertyValue ownershipSplit : ℚ) : ℚ :=
  propertyValue * ((100 - ownershipSplit) / 100)

/-- JS `finalLoan1 = Math.max(0, ownershipValue1 - downPayment1)`. -/
def finalLoan1 (propertyValue ownershipSplit downPayment1 : ℚ) : ℚ :=
  max 0 (ownershipValue1 propertyValue ownershipSplit - downPayment1)

/-- JS `finalLoan2 = Math.max(0, ownershipValue2 - downPayment2)`. -/
def finalLoan2 (propertyValue ownershipSplit downPayment2 : ℚ) : ℚ :=
  max 0 (ownershipValue2 propertyValue ownershipSplit - downPayment2)

/-- JS `usableEquity1 = Math.min(downPayment1, ownershipValue1)` (the
`byPrice` branch of the first `App.js` variant). -/
def usableEquity1 (propertyValue ownershipSplit downPayment1 : ℚ) : ℚ :=
  min downPayment1 (ownershipValue1 propertyValue ownershipSplit)

/-- JS `usableEquity2 = Math.min(downPayment2, ownershipValue2)`. -/
def usableEquity2 (propertyValue ownershipSplit downPayment2 : ℚ) : ℚ :=
  min downPayment2 (ownershipValue2 propertyValue ownershipSplit)

/-- JS `currentLoanAmount = Math.max(0, propertyValue - totalUsableEquity)`
where `totalUsableEquity = usableEquity1 + usableEquity2`. -/
def currentLoanAmount (propertyValue ownershipSplit downPayment1 downPayment2 : ℚ) : ℚ :=
  max 0 (propertyValue - (usableEquity1 propertyValue ownershipSplit downPayment1 +
    usableEquity2 propertyValue ownershipSplit downPayment2))

/-- One row of the combined cash-flow series built by
`correctCombinedAmortization`. -/
structure CombinedEntry where
  month : ℕ
  balance : ℚ
  principal : ℚ
  interest : ℚ
  totalPayment : ℚ
  deriving DecidableEq, Repr

/-- JS zero-filled placeholder
`{ balance: 0, principal: 0, interest: 0, totalPayment: 0 }` used when a
schedule has no entry at an index (`amortization[i] || {...}`); the `month`
field is never read from it. -/
def zeroMonthData : AmortizationEntry := ⟨0, 0, 0, 0, 0⟩

/-- JS combined-amortization loop: for `i = 0 .. numberOfPayments - 1`, add
the two schedules' rows at `i` component-wise, treating a missing row as the
zero placeholder. -/
def correctCombinedAmortization (amort1 amort2 : List AmortizationEntry)
    (numberOfPayments : ℕ) : List CombinedEntry :=
  (List.range numberOfPayments).map fun i =>
    ⟨i + 1,
     (amort1.getD i zeroMonthData).balance + (amort2.getD i zeroMonthData).balance,
     (amort1.getD i zeroMonthData).principal + (amort2.getD i zeroMonthData).principal,
     (amort1.getD i zeroMonthData).interest + (amort2.getD i zeroMonthData).interest,
     (amort1.getD i zeroMonthData).totalPayment + (amort2.getD i zeroMonthData).totalPayment⟩

/-- Result record of JS `calculateAffordability`. -/
structure AffordabilityResult where
  maxLoan : ℚ
  maxPropertyPrice : ℚ
  deriving DecidableEq, Repr

/-- The fixed-point iteration of JS `calculateAffordability` (the second
`App.js` variant, "FIX 3"): up to 10 iterations over the running
`estimatedPropertyValue` and `maxLoan`; breaks with `maxLoan = 0` when the
principal-and-interest budget `pAndI` is non-positive, and breaks returning
the freshly computed `maxLoan` when the estimate moved by less than 1000. -/
def affordabilityLoop (propertyTaxMode : String)
    (customPropertyTaxAmount municipalDues homeInsurance hoa rentalIncome
      desiredMonthlyPayment : ℚ) (loanType : String) (monthlyInterestRate : ℚ)
    (numberOfPayments : ℕ) (totalDownPayment : ℚ) :
    ℚ → ℚ → ℕ → ℚ
  | _, maxLoan, 0 => maxLoan
  | estimatedPropertyValue, _, fuel + 1 =>
    if desiredMonthlyPayment + rentalIncome -
        (municipalDues / 12 + homeInsurance / 12 +
          calculatePropertyTax estimatedPropertyValue propertyTaxMode
            customPropertyTaxAmount / 12 + hoa) ≤ 0 then 0
    else
      (fun pAndI =>
        (fun maxLoan =>
          if |maxLoan + totalDownPayment - estimatedPropertyValue| < 1000 then maxLoan
          else affordabilityLoop propertyTaxMode customPropertyTaxAmount municipalDues
            homeInsurance hoa rentalIncome desiredMonthlyPayment loanType
            monthlyInterestRate numberOfPayments totalDownPayment
            (maxLoan + totalDownPayment) maxLoan fuel)
        (if loanType = "annuity" then
          pAndI * (((1 + monthlyInterestRate) ^ numberOfPayments - 1) /
            (monthlyInterestRate * (1 + monthlyInterestRate) ^ numberOfPayments))
        else pAndI / (1 / (numberOfPayments : ℚ) + monthlyInterestRate)))
      (desiredMonthlyPayment + rentalIncome -
        (municipalDues / 12 + homeInsurance / 12 +
          calculatePropertyTax estimatedPropertyValue propertyTaxMode
            customPropertyTaxAmount / 12 + hoa))

/-- JS `calculateAffordability(totalDownPayment)` (second `App.js` variant):
degenerate-input guard (`desiredMonthlyPayment <= 0 || interestRate <= 0 ||
loanTerm <= 0 || !isFinite(...)`; non-finite values do not exist in `ℚ`, and
`loanTerm <= 0` for a natural number means `= 0`), then the iteration seeded
with `desiredMonthlyPayment * 200`, and finally
`maxLoan = maxLoan > 0 ? maxLoan : 0` with
`maxPropertyPrice = maxLoan + totalDownPayment`. -/
def calculateAffordability (propertyTaxMode : String)
    (customPropertyTaxAmount municipalDues homeInsurance hoa rentalIncome : ℚ)
    (loanType : String) (desiredMonthlyPayment interestRate : ℚ) (loanTerm : ℕ)
    (totalDownPayment : ℚ) : AffordabilityResult :=
  if desiredMonthlyPayment ≤ 0 ∨ interestRate ≤ 0 ∨ loanTerm = 0 then
    ⟨0, totalDownPayment⟩
  else
    (fun m =>
      ⟨if 0 < m then m else 0, (if 0 < m then m else 0) + totalDownPayment⟩)
    (affordabilityLoop propertyTaxMode customPropertyTaxAmount municipalDues
      homeInsurance hoa rentalIncome desiredMonthlyPayment loanType
      (interestRate / 100 / 12) (loanTerm * 12) totalDownPayment
      (desiredMonthlyPayment * 200) 0 10)

/-- Helper: for `0 ≤ a`, `max 0 (a - d) = a - min d a` — the net loan of a
share `a` after equity `d` equals the share minus the usable equity. -/
theorem max_sub_eq_sub_min (a d : ℚ) (ha : 0 ≤ a) : max 0 (a - d) = a - min d a := by
  rcases le_total d a with h | h
  · rw [min_eq_left h, max_eq_right (by linarith)]
  · rw [min_eq_right h, max_eq_left (by linarith)]
    ring

/-- C4.  The claim "Custom mode returns `customAmount` verbatim for every
`propertyValue`" fails: the `propertyValue <= 0` guard fires before the mode
check, so Custom mode returns `0`, not `customAmount`, at
`propertyValue = 0`, `customAmount = 5000`. -/
theorem calculatePropertyTax_custom_counterexample :
    calculatePropertyTax 0 "custom" 5000 ≠ 5000 := by
  rw [calculatePropertyTax, if_pos (le_refl (0:ℚ))]
  norm_num

/-- C4 (amended).  For every `propertyValue > 0` and every `customAmount`,
Custom mode returns `customAmount` verbatim, ignoring `propertyValue`; for
`propertyValue ≤ 0` the calculator returns `0` regardless of mode. -/
theorem calculatePropertyTax_custom_pos (pv ca : ℚ) (h : 0 < pv) :
    calculatePropertyTax pv "custom" ca = ca := by
  rw [calculatePropertyTax, if_neg (not_le.mpr h), if_neg (by decide)]

/-- C4 witness: `propertyValue = 7`, `customAmount = 5000`. -/
theorem calculatePropertyTax_custom_pos_witness :
    0 < (7 : ℚ) ∧ calculatePropertyTax 7 "custom" 5000 = 5000 :=
  ⟨by norm_num, calculatePropertyTax_custom_pos 7 5000 (by norm_num)⟩

/-- C5.  For every `propertyValue > 0`, Oslo mode returns
`max 0 (propertyValue * 0.7 - 4 700 000) * 0.00235`; in particular the tax is
`0` at `propertyValue = 5 000 000` and `5405` at
`propertyValue = 10 000 000`. -/
theorem calculatePropertyTax_oslo :
    (∀ pv ca : ℚ, 0 < pv →
      calculatePropertyTax pv "oslo" ca =
        (max 0 (pv * (7/10) - 4700000)) * (235/100000)) ∧
    calculatePropertyTax 5000000 "oslo" 0 = 0 ∧
    calculatePropertyTax 10000000 "oslo" 0 = 5405 := by
  refine ⟨fun pv ca h => ?_, ?_, ?_⟩
  · rw [calculatePropertyTax, if_neg (not_le.mpr h), if_pos rfl]
  · rw [calculatePropertyTax, if_neg (by norm_num), if_pos rfl,
      max_eq_left (by norm_num : (5000000:ℚ) * (7/10) - 4700000 ≤ 0)]
    norm_num
  · rw [calculatePropertyTax, if_neg (by norm_num), if_pos rfl,
      max_eq_right (by norm_num : (0:ℚ) ≤ 10000000 * (7/10) - 4700000)]
    norm_num

/-- C5 witness: the general Oslo formula instantiated at
`propertyValue = 10 000 000`. -/
theorem calculatePropertyTax_oslo_witness :
    calculatePropertyTax 10000000 "oslo" 123 =
      (max 0 (10000000 * (7/10) - 4700000)) * (235/100000) :=
  calculatePropertyTax_oslo.1 10000000 123 (by norm_num)

/-- Helper: the serial loop produces at least one row when it has fuel and a
positive starting balance. -/
theorem serialSteps_ne_nil (r ppm b : ℚ) (i fuel : ℕ) (hb : ¬ b ≤ 0) :
    serialSteps r ppm b i (fuel + 1) ≠ [] := by
  simp only [serialSteps, if_neg hb]
  exact List.cons_ne_nil _ _

/-- C6.  The claim "a structure value outside `{annuity, serial}` fails fast
with an invalid-argument error" fails: at the concrete structure tag
`"bogus"`, `calculateLoanDetails` silently produces the serial schedule (a
non-empty, perfectly ordinary result) instead of any error. -/
theorem loan_structure_silent_default_counterexample :
    calculateLoanDetails "bogus" 12 1 1200 = calculateLoanDetails "serial" 12 1 1200 ∧
    (calculateLoanDetails "bogus" 12 1 1200).amortization ≠ [] := by
  constructor
  · rw [calculateLoanDetails, calculateLoanDetails,
      if_neg (by norm_num : ¬(1200:ℚ) ≤ 0), if_neg (by norm_num : ¬(1200:ℚ) ≤ 0),
      if_neg (by decide : ¬("bogus" = "annuity")),
      if_neg (by decide : ¬("serial" = "annuity"))]
  · rw [calculateLoanDetails, if_neg (by norm_num : ¬(1200:ℚ) ≤ 0),
      if_neg (by decide : ¬("bogus" = "annuity"))]
    show serialSteps (12/100/12) (1200 / ((1*12 : ℕ) : ℚ)) 1200 1 (11+1) ≠ []
    exact serialSteps_ne_nil _ _ _ _ 11 (by norm_num)

/-- C6 (amended).  Every structure value other than `"annuity"` is silently
treated as serial: the amortizer has no error path and never rejects an
unrecognized structure tag. -/
theorem loan_structure_defaults_to_serial (s : String) (hs : s ≠ "annuity")
    (ir : ℚ) (T : ℕ) (amount : ℚ) :
    calculateLoanDetails s ir T amount = calculateLoanDetails "serial" ir T amount := by
  rw [calculateLoanDetails, calculateLoanDetails]
  by_cases h : amount ≤ 0
  · rw [if_pos h, if_pos h]
  · rw [if_neg h, if_neg h, if_neg hs, if_neg (by decide)]

/-- C6 witness: the structure tag `"x"`. -/
theorem loan_structure_defaults_to_serial_witness :
    calculateLoanDetails "x" 5 1 100 = calculateLoanDetails "serial" 5 1 100 :=
  loan_structure_defaults_to_serial "x" (by decide) 5 1 100

/-- C8.  The claim "`loan1 + loan2 = propertyValue` only when the total down
payment is 0" fails: with `propertyValue = 1 000 000`, split `100 %`,
`downPayment1 = 0`, `downPayment2 = 500 000`, buyer 2's entire down payment
exceeds their (zero) ownership share, so `loan1 + loan2 = propertyValue`
while the total down payment is `500 000 ≠ 0`. -/
theorem ownership_split_equality_counterexample :
    finalLoan1 1000000 100 0 + finalLoan2 1000000 100 500000 = 1000000 ∧
    (0 : ℚ) + 500000 ≠ 0 := by
  constructor
  · rw [finalLoan1, finalLoan2, ownershipValue1, ownershipValue2,
      max_eq_right (by norm_num : (0:ℚ) ≤ 1000000 * (100/100) - 0),
      max_eq_left (by norm_num : (1000000:ℚ) * ((100 - 100)/100) - 500000 ≤ 0)]
    norm_num
  · norm_num

/-- C8 (amended).  For every `propertyValue ≥ 0`, split in `[0,100]` and down
payments `≥ 0`: `loan1 ≥ 0`, `loan2 ≥ 0`, and
`loan1 + loan2 ≤ propertyValue`, with equality exactly when both buyers'
usable equity `min(downPaymentN, ownershipValueN)` is zero (in particular
whenever the total down payment is 0). -/
theorem ownership_split_invariants (pv s dp1 dp2 : ℚ) (hpv : 0 ≤ pv)
    (hs0 : 0 ≤ s) (hs1 : s ≤ 100) (h1 : 0 ≤ dp1) (h2 : 0 ≤ dp2) :
    0 ≤ finalLoan1 pv s dp1 ∧ 0 ≤ finalLoan2 pv s dp2 ∧
    finalLoan1 pv s dp1 + finalLoan2 pv s dp2 ≤ pv ∧
    (finalLoan1 pv s dp1 + finalLoan2 pv s dp2 = pv ↔
      usableEquity1 pv s dp1 = 0 ∧ usableEquity2 pv s dp2 = 0) := by
  have ha : 0 ≤ ownershipValue1 pv s := by
    have : (0:ℚ) ≤ s / 100 := by linarith
    exact mul_nonneg hpv this
  have hb : 0 ≤ ownershipValue2 pv s := by
    have : (0:ℚ) ≤ (100 - s) / 100 := by linarith
    exact mul_nonneg hpv this
  have hab : ownershipValue1 pv s + ownershipValue2 pv s = pv := by
    rw [ownershipValue1, ownershipValue2]; ring
  have e1 : finalLoan1 pv s dp1 = ownershipValue1 pv s - usableEquity1 pv s dp1 :=
    max_sub_eq_sub_min _ _ ha
  have e2 : finalLoan2 pv s dp2 = ownershipValue2 pv s - usableEquity2 pv s dp2 :=
    max_sub_eq_sub_min _ _ hb
  have u1a : usableEquity1 pv s dp1 ≤ ownershipValue1 pv s := min_le_right _ _
  have u2b : usableEquity2 pv s dp2 ≤ ownershipValue2 pv s := min_le_right _ _
  have u1n : 0 ≤ usableEquity1 pv s dp1 := le_min h1 ha
  have u2n : 0 ≤ usableEquity2 pv s dp2 := le_min h2 hb
  refine ⟨le_max_left _ _, le_max_left _ _, by rw [e1, e2]; linarith, ?_⟩
  rw [e1, e2]
  constructor
  · intro h
    constructor <;> linarith
  · intro ⟨hu1, hu2⟩
    rw [hu1, hu2]
    linarith

/-- C8 witness: `propertyValue = 1 000 000`, split `60 %`, down payments
`200 000` and `100 000`. -/
theorem ownership_split_invariants_witness :
    0 ≤ finalLoan1 1000000 60 200000 ∧ 0 ≤ finalLoan2 1000000 60 100000 ∧
    finalLoan1 1000000 60 200000 + finalLoan2 1000000 60 100000 ≤ 1000000 ∧
    (finalLoan1 1000000 60 200000 + finalLoan2 1000000 60 100000 = 1000000 ↔
      usableEquity1 1000000 60 200000 = 0 ∧ usableEquity2 1000000 60 100000 = 0) :=
  ownership_split_invariants 1000000 60 200000 100000 (by norm_num) (by norm_num)
    (by norm_num) (by norm_num) (by norm_num)

/-- C10.  On the shared input domain (`propertyValue ≥ 0`, split in
`[0,100]`, down payments `≥ 0`), the two total-loan formulations in the
source agree: `max 0 (propertyValue - usableEquity1 - usableEquity2)` equals
`finalLoan1 + finalLoan2`. -/
theorem total_loan_refinement_equiv (pv s dp1 dp2 : ℚ) (hpv : 0 ≤ pv)
    (hs0 : 0 ≤ s) (hs1 : s ≤ 100) (h1 : 0 ≤ dp1) (h2 : 0 ≤ dp2) :
    currentLoanAmount pv s dp1 dp2 = finalLoan1 pv s dp1 + finalLoan2 pv s dp2 := by
  have ha : 0 ≤ ownershipValue1 pv s := by
    have : (0:ℚ) ≤ s / 100 := by linarith
    exact mul_nonneg hpv this
  have hb : 0 ≤ ownershipValue2 pv s := by
    have : (0:ℚ) ≤ (100 - s) / 100 := by linarith
    exact mul_nonneg hpv this
  have hab : ownershipValue1 pv s + ownershipValue2 pv s = pv := by
    rw [ownershipValue1, ownershipValue2]; ring
  have e1 : finalLoan1 pv s dp1 = ownershipValue1 pv s - usableEquity1 pv s dp1 :=
    max_sub_eq_sub_min _ _ ha
  have e2 : finalLoan2 pv s dp2 = ownershipValue2 pv s - usableEquity2 pv s dp2 :=
    max_sub_eq_sub_min _ _ hb
  have u1a : usableEquity1 pv s dp1 ≤ ownershipValue1 pv s := min_le_right _ _
  have u2b : usableEquity2 pv s dp2 ≤ ownershipValue2 pv s := min_le_right _ _
  rw [currentLoanAmount, e1, e2, max_eq_right (by linarith)]
  linarith

/-- C10 witness: `propertyValue = 1 000 000`, split `60 %`, down payments
`200 000` and `700 000` (buyer 2's equity exceeds their share). -/
theorem total_loan_refinement_equiv_witness :
    currentLoanAmount 1000000 60 200000 700000 =
      finalLoan1 1000000 60 200000 + finalLoan2 1000000 60 700000 :=
  total_loan_refinement_equiv 1000000 60 200000 700000 (by norm_num) (by norm_num)
    (by norm_num) (by norm_num) (by norm_num)

/-- C7.  Degenerate inputs (non-positive payment, rate, or term — the
non-finite cases of the JS guard cannot arise in exact rational arithmetic)
short-circuit the affordability solver to `{0, downPayment}`; and for every
input whatsoever, the returned `maxLoan` is `≥ 0` and the returned
`maxPropertyPrice` equals `maxLoan + downPayment`. -/
theorem calculateAffordability_guard_and_shape :
    (∀ (ptm : String) (cpt md hi ho ri : ℚ) (lty : String) (dmp ir : ℚ) (T : ℕ)
        (dp : ℚ), dmp ≤ 0 ∨ ir ≤ 0 ∨ T = 0 →
      calculateAffordability ptm cpt md hi ho ri lty dmp ir T dp = ⟨0, dp⟩) ∧
    (∀ (ptm : String) (cpt md hi ho ri : ℚ) (lty : String) (dmp ir : ℚ) (T : ℕ)
        (dp : ℚ),
      0 ≤ (calculateAffordability ptm cpt md hi ho ri lty dmp ir T dp).maxLoan ∧
      (calculateAffordability ptm cpt md hi ho ri lty dmp ir T dp).maxPropertyPrice =
        (calculateAffordability ptm cpt md hi ho ri lty dmp ir T dp).maxLoan + dp) := by
  constructor
  · intro ptm cpt md hi ho ri lty dmp ir T dp h
    rw [calculateAffordability, if_pos h]
  · intro ptm cpt md hi ho ri lty dmp ir T dp
    rw [calculateAffordability]
    by_cases h : dmp ≤ 0 ∨ ir ≤ 0 ∨ T = 0
    · rw [if_pos h]
      exact ⟨le_refl 0, (zero_add dp).symm⟩
    · rw [if_neg h]
      constructor
      · by_cases hm : 0 < affordabilityLoop ptm cpt md hi ho ri dmp lty
          (ir / 100 / 12) (T * 12) dp (dmp * 200) 0 10
        · simpa [hm] using hm.le
        · simp [hm]
      · by_cases hm : 0 < affordabilityLoop ptm cpt md hi ho ri dmp lty
          (ir / 100 / 12) (T * 12) dp (dmp * 200) 0 10
        · simp [hm]
        · simp [hm]

/-- C7 witness: `desiredMonthlyPayment = 0` short-circuits to
`{0, downPayment}` at `downPayment = 1 000 000`. -/
theorem calculateAffordability_guard_witness :
    calculateAffordability "oslo" 5000 15000 0 0 0 "annuity" 0 (52/10) 25 1000000 =
      ⟨0, 1000000⟩ :=
  calculateAffordability_guard_and_shape.1 "oslo" 5000 15000 0 0 0 "annuity" 0
    (52/10) 25 1000000 (Or.inl (by norm_num))

/-- C9.  The combined cash-flow series always has length exactly
`numberOfPayments`, whatever the two input schedules are; and a month index
beyond the end of both schedules yields an all-zero row (month number
aside). -/
theorem correctCombinedAmortization_length_and_padding
    (amort1 amort2 : List AmortizationEntry) (n : ℕ) :
    (correctCombinedAmortization amort1 amort2 n).length = n ∧
    (∀ i : ℕ, i < n → amort1.length ≤ i → amort2.length ≤ i →
      (correctCombinedAmortization amort1 amort2 n).getD i ⟨0, 0, 0, 0, 0⟩ =
        ⟨i + 1, 0, 0, 0, 0⟩) := by
  constructor
  · rw [correctCombinedAmortization, List.length_map, List.length_range]
  · intro i hi h1 h2
    rw [List.getD_eq_getElem?_getD, correctCombinedAmortization, List.getElem?_map,
      List.getElem?_range hi]
    simp only [Option.map_some', Option.getD_some]
    rw [List.getD_eq_getElem?_getD, List.getD_eq_getElem?_getD,
      List.getElem?_eq_none (by simpa using h1), List.getElem?_eq_none (by simpa using h2)]
    simp [zeroMonthData]

/-- C9 witness: a one-entry schedule and an empty schedule combined over a
2-month horizon: length 2, and month index 1 (beyond both) is all-zero. -/
theorem correctCombinedAmortization_witness :
    (correctCombinedAmortization [⟨1, 5, 6, 7, 8⟩] [] 2).length = 2 ∧
    (correctCombinedAmortization [⟨1, 5, 6, 7, 8⟩] [] 2).getD 1 ⟨0, 0, 0, 0, 0⟩ =
      ⟨2, 0, 0, 0, 0⟩ :=
  ⟨(correctCombinedAmortization_length_and_padding [⟨1, 5, 6, 7, 8⟩] [] 2).1,
   (correctCombinedAmortization_length_and_padding [⟨1, 5, 6, 7, 8⟩] [] 2).2 1
     (by decide) (by decide) (by decide)⟩

/-- Helper: shifting the annuity balance recurrence by one step. -/
theorem annuityBal_shift (r M b : ℚ) (j : ℕ) :
    annuityBal r M b (j + 1) = annuityBal r M (b * (1 + r) - M) j := by
  induction j with
  | zero => rfl
  | succ j ih =>
    show annuityBal r M b (j + 1) * (1 + r) - M =
      annuityBal r M (b * (1 + r) - M) j * (1 + r) - M
    rw [ih]

/-- Helper: when every intermediate balance stays positive, the annuity loop
never breaks early and its rows are exactly determined by the balance
recurrence. -/
theorem annuitySteps_eq_map (r M b : ℚ) (i fuel : ℕ)
    (hpos : ∀ j, j < fuel → 0 < annuityBal r M b j) :
    annuitySteps r M b i fuel = (List.range fuel).map (fun j =>
      ⟨i + j, M - annuityBal r M b j * r, annuityBal r M b j * r,
       if annuityBal r M b (j + 1) < 0 then 0 else annuityBal r M b (j + 1), M⟩) := by
  induction fuel generalizing b i with
  | zero => simp [annuitySteps]
  | succ fuel ih =>
    have hb : 0 < b := hpos 0 (Nat.succ_pos _)
    have hb' : b - (M - b * r) = b * (1 + r) - M := by ring
    rw [annuitySteps, if_neg (not_le.mpr hb), List.range_succ_eq_map, List.map_cons,
      List.map_map, hb']
    have hpos' : ∀ j, j < fuel → 0 < annuityBal r M (b * (1 + r) - M) j := by
      intro j hj
      rw [← annuityBal_shift]
      exact hpos (j + 1) (Nat.succ_lt_succ hj)
    rw [ih (b * (1 + r) - M) (i + 1) hpos']
    congr 1
    apply List.map_congr_left
    intro j hj
    simp only [Function.comp_apply]
    rw [← annuityBal_shift r M b j, ← annuityBal_shift r M b (j + 1)]
    have hij : i + 1 + j = i + (j + 1) := by omega
    rw [hij]

/-- Helper: when every intermediate balance stays positive, the serial loop
never breaks early and its rows follow the linear balance decline. -/
theorem serialSteps_eq_map (r ppm b : ℚ) (i fuel : ℕ)
    (hpos : ∀ j : ℕ, j < fuel → 0 < b - (j : ℚ) * ppm) :
    serialSteps r ppm b i fuel = (List.range fuel).map (fun j =>
      ⟨i + j, ppm, (b - (j : ℚ) * ppm) * r,
       if b - ((j : ℚ) + 1) * ppm < 0 then 0 else b - ((j : ℚ) + 1) * ppm,
       ppm + (b - (j : ℚ) * ppm) * r⟩) := by
  induction fuel generalizing b i with
  | zero => simp [serialSteps]
  | succ fuel ih =>
    have hb : 0 < b := by simpa using hpos 0 (Nat.succ_pos _)
    rw [serialSteps, if_neg (not_le.mpr hb), List.range_succ_eq_map, List.map_cons,
      List.map_map]
    have hpos' : ∀ j : ℕ, j < fuel → 0 < b - ppm - (j : ℚ) * ppm := by
      intro j hj
      have := hpos (j + 1) (Nat.succ_lt_succ hj)
      push_cast at this ⊢
      linarith
    rw [ih (b - ppm) (i + 1) hpos']
    congr 1
    · simp only [Nat.cast_zero, zero_mul, sub_zero, zero_add, Nat.add_zero, one_mul]
    · apply List.map_congr_left
      intro j hj
      simp only [Function.comp_apply]
      have e1 : b - ppm - (j : ℚ) * ppm = b - ((j + 1 : ℕ) : ℚ) * ppm := by
        push_cast
        ring
      have e2 : b - ppm - ((j : ℚ) + 1) * ppm = b - (((j + 1 : ℕ) : ℚ) + 1) * ppm := by
        push_cast
        ring
      have e3 : i + 1 + j = i + (j + 1) := by omega
      rw [e1, e2, e3]

/-- Helper: a sum over `List.range` is the corresponding `Finset.range` sum. -/
theorem listRangeMapSum (n : ℕ) (f : ℕ → ℚ) :
    ((List.range n).map f).sum = ∑ j ∈ Finset.range n, f j := by
  induction n with
  | zero => simp
  | succ n ih =>
    rw [List.range_succ, List.map_append, List.sum_append, Finset.sum_range_succ, ih]
    simp

/-- Helper: the last element of a map over `List.range (n + 1)`. -/
theorem listRangeMapGetLast {α : Type*} (n : ℕ) (f : ℕ → α) :
    ((List.range (n + 1)).map f).getLast? = some (f n) := by
  rw [List.range_succ, List.map_append]
  simp

/-- Helper: closed form of the annuity balance when started at the principal
with the closed-form payment: `b_k = P ((1+r)^n - (1+r)^k) / ((1+r)^n - 1)`. -/
theorem annuityBal_closed (r P : ℚ) (n : ℕ) (hD : (1 + r) ^ n - 1 ≠ 0) (k : ℕ) :
    annuityBal r (annuityPayment P r n) P k =
      P * ((1 + r) ^ n - (1 + r) ^ k) / ((1 + r) ^ n - 1) := by
  induction k with
  | zero =>
    show P = _
    rw [pow_zero, mul_div_assoc]
    rw [div_self hD, mul_one]
  | succ k ih =>
    show annuityBal r (annuityPayment P r n) P k * (1 + r) - annuityPayment P r n = _
    rw [ih, annuityPayment]
    field_simp
    ring

/-- Helper: with a positive rate and principal, the annuity balance is
strictly positive before the final month. -/
theorem annuityBal_pos_of_lt (r P : ℚ) (hr : 0 < r) (hP : 0 < P) (n : ℕ)
    (hn : n ≠ 0) (k : ℕ) (hk : k < n) :
    0 < annuityBal r (annuityPayment P r n) P k := by
  have hq : 1 < 1 + r := by linarith
  have hD : 0 < (1 + r) ^ n - 1 := by
    have := one_lt_pow₀ hq hn
    linarith
  rw [annuityBal_closed r P n hD.ne' k]
  have hlt : (1 + r) ^ k < (1 + r) ^ n := pow_lt_pow_right₀ hq hk
  exact div_pos (mul_pos hP (by linarith)) hD

/-- Helper: the annuity balance is exactly zero after the full term. -/
theorem annuityBal_final (r P : ℚ) (n : ℕ) (hD : (1 + r) ^ n - 1 ≠ 0) :
    annuityBal r (annuityPayment P r n) P n = 0 := by
  rw [annuityBal_closed r P n hD n, sub_self, mul_zero, zero_div]

/-- Helper: at rate zero the closed-form payment is a literal division by
zero, which in `ℚ` collapses to `0` (in IEEE arithmetic it is `0/0 = NaN`). -/
theorem annuityPayment_zero_rate (P : ℚ) (n : ℕ) : annuityPayment P 0 n = 0 := by
  rw [annuityPayment]
  norm_num

/-- Helper: with rate and payment both zero the balance never moves. -/
theorem annuityBal_zero_rate (b : ℚ) (j : ℕ) : annuityBal 0 0 b j = b := by
  induction j with
  | zero => rfl
  | succ j ih =>
    show annuityBal 0 0 b j * (1 + 0) - 0 = b
    rw [ih]
    ring

/-- Helper: each term of a geometric series with ratio `≥ 1` is at least 1. -/
theorem geomSumLower (q : ℚ) (hq : 1 ≤ q) (m : ℕ) :
    (m : ℚ) ≤ ∑ t ∈ Finset.range m, q ^ t := by
  have h : ∀ t ∈ Finset.range m, (1 : ℚ) ≤ q ^ t := fun t _ => one_le_pow₀ hq
  calc (m : ℚ) = ∑ _t ∈ Finset.range m, (1 : ℚ) := by simp
    _ ≤ _ := Finset.sum_le_sum h

/-- Helper: each term of a geometric series with ratio `> 1` is strictly
below the next power. -/
theorem geomSumUpper (q : ℚ) (hq : 1 < q) (m : ℕ) (hm : m ≠ 0) :
    ∑ t ∈ Finset.range m, q ^ t < (m : ℚ) * q ^ m := by
  have h : ∀ t ∈ Finset.range m, q ^ t < q ^ m := fun t ht =>
    pow_lt_pow_right₀ hq (Finset.mem_range.mp ht)
  calc ∑ t ∈ Finset.range m, q ^ t < ∑ _t ∈ Finset.range m, q ^ m :=
      Finset.sum_lt_sum_of_nonempty (Finset.nonempty_range_iff.mpr hm) h
    _ = (m : ℚ) * q ^ m := by
      rw [Finset.sum_const, Finset.card_range, nsmul_eq_mul]

/-- Helper (weighted AM-GM for powers): for `q > 1` and `0 < j < n`,
`n q^j < j q^n + (n - j)` — the geometric balance curve lies strictly above
the linear one at interior months. -/
theorem annuity_core_strict (q : ℚ) (hq : 1 < q) (n j : ℕ) (hj : j < n)
    (hj0 : j ≠ 0) :
    (n : ℚ) * q ^ j < (j : ℚ) * q ^ n + ((n : ℚ) - (j : ℚ)) := by
  have hq1 : (0 : ℚ) < q - 1 := by linarith
  have hq0 : (0 : ℚ) < q := by linarith
  have hqj : (0 : ℚ) < q ^ j := pow_pos hq0 j
  have hjn : (j : ℚ) < (n : ℚ) := by exact_mod_cast hj
  have hnj : (0 : ℚ) < (n : ℚ) - j := by linarith
  have epow : q ^ n = q ^ j * q ^ (n - j) := by
    rw [← pow_add]
    congr 1
    omega
  have hcast : ((n - j : ℕ) : ℚ) = (n : ℚ) - j := by
    rw [Nat.cast_sub hj.le]
  have hlow : ((n : ℚ) - j) * (q - 1) ≤ q ^ (n - j) - 1 := by
    rw [← geom_sum_mul q (n - j), ← hcast]
    exact mul_le_mul_of_nonneg_right (geomSumLower q hq.le (n - j)) hq1.le
  have hup : q ^ j - 1 < (j : ℚ) * q ^ j * (q - 1) := by
    rw [← geom_sum_mul q j]
    exact mul_lt_mul_of_pos_right (geomSumUpper q hq j hj0) hq1
  have key : ((n : ℚ) - j) * (q ^ j - 1) < (j : ℚ) * q ^ j * (q ^ (n - j) - 1) := by
    calc ((n : ℚ) - j) * (q ^ j - 1)
        < ((n : ℚ) - j) * ((j : ℚ) * q ^ j * (q - 1)) := mul_lt_mul_of_pos_left hup hnj
      _ = (j : ℚ) * q ^ j * (((n : ℚ) - j) * (q - 1)) := by ring
      _ ≤ (j : ℚ) * q ^ j * (q ^ (n - j) - 1) := by
          apply mul_le_mul_of_nonneg_left hlow
          have hjq : (0 : ℚ) ≤ (j : ℚ) := Nat.cast_nonneg j
          positivity
  nlinarith [key, epow]

/-- Helper: the serial balance is positive before the final month. -/
theorem serial_bal_pos (P : ℚ) (hP : 0 < P) (n : ℕ) (j : ℕ) (hj : j < n) :
    0 < P - (j : ℚ) * (P / (n : ℚ)) := by
  have hn' : (0 : ℚ) < (n : ℚ) := by
    exact_mod_cast lt_of_le_of_lt (Nat.zero_le j) hj
  have hjn : (j : ℚ) < (n : ℚ) := by exact_mod_cast hj
  have h1 : (j : ℚ) * (P / n) < (n : ℚ) * (P / n) :=
    mul_lt_mul_of_pos_right hjn (div_pos hP hn')
  have h2 : (n : ℚ) * (P / n) = P := by field_simp
  linarith

/-- Helper: month by month, the serial balance is at most the annuity
balance (the annuity retires principal more slowly). -/
theorem serial_bal_le_annuity_bal (P r : ℚ) (hP : 0 < P) (hr : 0 < r) (n : ℕ)
    (hn : n ≠ 0) (j : ℕ) (hj : j < n) :
    P - (j : ℚ) * (P / (n : ℚ)) ≤ annuityBal r (annuityPayment P r n) P j := by
  have hq : 1 < 1 + r := by linarith
  have hD : 0 < (1 + r) ^ n - 1 := by
    have := one_lt_pow₀ hq hn
    linarith
  have hn' : (0 : ℚ) < (n : ℚ) := by exact_mod_cast Nat.pos_of_ne_zero hn
  have hL : P - (j : ℚ) * (P / (n : ℚ)) = P * ((n : ℚ) - j) / (n : ℚ) := by
    field_simp
    ring
  rw [annuityBal_closed r P n hD.ne' j, hL, div_le_div_iff₀ hn' hD]
  rcases Nat.eq_zero_or_pos j with rfl | hj0
  · apply le_of_eq
    push_cast
    rw [pow_zero]
    ring
  · have core := annuity_core_strict (1 + r) hq n j hj hj0.ne'
    nlinarith [core.le, mul_nonneg hP.le (sub_nonneg.mpr core.le)]

/-- Helper: strictly so at every interior month when the rate is positive. -/
theorem serial_bal_lt_annuity_bal (P r : ℚ) (hP : 0 < P) (hr : 0 < r) (n : ℕ)
    (hn : n ≠ 0) (j : ℕ) (hj : j < n) (hj0 : j ≠ 0) :
    P - (j : ℚ) * (P / (n : ℚ)) < annuityBal r (annuityPayment P r n) P j := by
  have hq : 1 < 1 + r := by linarith
  have hD : 0 < (1 + r) ^ n - 1 := by
    have := one_lt_pow₀ hq hn
    linarith
  have hn' : (0 : ℚ) < (n : ℚ) := by exact_mod_cast Nat.pos_of_ne_zero hn
  have hL : P - (j : ℚ) * (P / (n : ℚ)) = P * ((n : ℚ) - j) / (n : ℚ) := by
    field_simp
    ring
  rw [annuityBal_closed r P n hD.ne' j, hL, div_lt_div_iff₀ hn' hD]
  have core := annuity_core_strict (1 + r) hq n j hj hj0
  nlinarith [core, mul_pos hP (sub_pos.mpr core)]

/-- Helper: branch unfolding of `calculateLoanDetails` for the annuity case. -/
theorem calculateLoanDetails_annuity (ir : ℚ) (T : ℕ) (P : ℚ) (hP : ¬P ≤ 0) :
    calculateLoanDetails "annuity" ir T P =
      ⟨annuityPayment P (ir / 100 / 12) (T * 12),
       ((annuitySteps (ir / 100 / 12) (annuityPayment P (ir / 100 / 12) (T * 12)) P 1
          (T * 12)).map AmortizationEntry.interest).sum,
       annuitySteps (ir / 100 / 12) (annuityPayment P (ir / 100 / 12) (T * 12)) P 1
        (T * 12)⟩ := by
  rw [calculateLoanDetails, if_neg hP, if_pos rfl]

/-- Helper: branch unfolding of `calculateLoanDetails` for the serial case. -/
theorem calculateLoanDetails_serial (ir : ℚ) (T : ℕ) (P : ℚ) (hP : ¬P ≤ 0) :
    calculateLoanDetails "serial" ir T P =
      ⟨(((serialSteps (ir / 100 / 12) (P / ((T * 12 : ℕ) : ℚ)) P 1
          (T * 12)).head?).map AmortizationEntry.totalPayment).getD 0,
       ((serialSteps (ir / 100 / 12) (P / ((T * 12 : ℕ) : ℚ)) P 1
          (T * 12)).map AmortizationEntry.interest).sum,
       serialSteps (ir / 100 / 12) (P / ((T * 12 : ℕ) : ℚ)) P 1 (T * 12)⟩ := by
  rw [calculateLoanDetails, if_neg hP, if_neg (by decide)]

/-- Helper: the serial branch's total interest as a closed sum over the
linearly declining balances. -/
theorem serialTotalInterest_eq (P ir : ℚ) (T : ℕ) (hP : 0 < P) :
    (calculateLoanDetails "serial" ir T P).totalInterestPaid =
      ∑ j ∈ Finset.range (T * 12),
        (P - (j : ℚ) * (P / ((T * 12 : ℕ) : ℚ))) * (ir / 100 / 12) := by
  rw [calculateLoanDetails_serial ir T P (not_le.mpr hP)]
  dsimp only
  rw [serialSteps_eq_map _ _ _ _ _ (fun j hj => serial_bal_pos P hP (T * 12) j hj),
    List.map_map]
  show ((List.range (T * 12)).map (fun j : ℕ =>
      (P - (j : ℚ) * (P / ((T * 12 : ℕ) : ℚ))) * (ir / 100 / 12))).sum = _
  rw [listRangeMapSum]

/-- Helper: the annuity branch's total interest as a closed sum over the
balance recurrence, under positivity of the intermediate balances. -/
theorem annuityTotalInterest_eq (P ir : ℚ) (T : ℕ) (hP : 0 < P)
    (hpos : ∀ j, j < T * 12 → 0 < annuityBal (ir / 100 / 12)
      (annuityPayment P (ir / 100 / 12) (T * 12)) P j) :
    (calculateLoanDetails "annuity" ir T P).totalInterestPaid =
      ∑ j ∈ Finset.range (T * 12),
        annuityBal (ir / 100 / 12) (annuityPayment P (ir / 100 / 12) (T * 12)) P j *
          (ir / 100 / 12) := by
  rw [calculateLoanDetails_annuity ir T P (not_le.mpr hP)]
  dsimp only
  rw [annuitySteps_eq_map _ _ _ _ _ hpos, List.map_map]
  show ((List.range (T * 12)).map (fun j =>
      annuityBal (ir / 100 / 12) (annuityPayment P (ir / 100 / 12) (T * 12)) P j *
        (ir / 100 / 12))).sum = _
  rw [listRangeMapSum]

/-- C1.  Annuity conservation: for every principal `> 0`, annual rate `> 0`
and integer term years `> 0`, the sum of the `principal` column of the
annuity schedule equals the original principal — exactly in rational
arithmetic, hence in particular within `1e-6` relative tolerance — and the
final schedule row records a remaining balance of exactly `0`. -/
theorem annuity_principal_conservation (P ir : ℚ) (T : ℕ) (hP : 0 < P)
    (hr : 0 < ir) (hT : 0 < T) :
    |((calculateLoanDetails "annuity" ir T P).amortization.map
        AmortizationEntry.principal).sum - P| ≤ P * (1/1000000) ∧
    ((calculateLoanDetails "annuity" ir T P).amortization.getLast?).map
        AmortizationEntry.balance = some 0 := by
  rw [calculateLoanDetails_annuity ir T P (not_le.mpr hP)]
  dsimp only
  set r := ir / 100 / 12 with hrdef
  set n := T * 12 with hndef
  have hr' : 0 < r := by rw [hrdef]; positivity
  have hn : n ≠ 0 := by omega
  have hq : 1 < 1 + r := by linarith
  have hD : 0 < (1 + r) ^ n - 1 := by
    have := one_lt_pow₀ hq hn
    linarith
  have hpos : ∀ j, j < n → 0 < annuityBal r (annuityPayment P r n) P j :=
    fun j hj => annuityBal_pos_of_lt r P hr' hP n hn j hj
  rw [annuitySteps_eq_map r (annuityPayment P r n) P 1 n hpos]
  constructor
  · rw [List.map_map]
    show |((List.range n).map (fun j =>
        annuityPayment P r n - annuityBal r (annuityPayment P r n) P j * r)).sum - P| ≤
      P * (1/1000000)
    rw [listRangeMapSum]
    have hterm : ∀ j ∈ Finset.range n,
        annuityPayment P r n - annuityBal r (annuityPayment P r n) P j * r =
          annuityBal r (annuityPayment P r n) P j -
            annuityBal r (annuityPayment P r n) P (j + 1) := by
      intro j _
      have hstep : annuityBal r (annuityPayment P r n) P (j + 1) =
          annuityBal r (annuityPayment P r n) P j * (1 + r) - annuityPayment P r n := rfl
      rw [hstep]
      ring
    rw [Finset.sum_congr rfl hterm,
      Finset.sum_range_sub' (fun j => annuityBal r (annuityPayment P r n) P j) n]
    have hb0 : annuityBal r (annuityPayment P r n) P 0 = P := rfl
    rw [hb0, annuityBal_final r P n hD.ne']
    simp only [sub_zero, sub_self, abs_zero]
    positivity
  · obtain ⟨m, hm⟩ : ∃ m, n = m + 1 := ⟨n - 1, by omega⟩
    rw [hm] at hD ⊢
    rw [listRangeMapGetLast, Option.map_some']
    dsimp only
    rw [annuityBal_final r P (m + 1) hD.ne']
    simp

/-- C1 witness: `P = 1000`, annual rate `12 %`, term 1 year. -/
theorem annuity_principal_conservation_witness :
    0 < (1000 : ℚ) ∧ 0 < (12 : ℚ) ∧ 0 < 1 ∧
    (|((calculateLoanDetails "annuity" 12 1 1000).amortization.map
        AmortizationEntry.principal).sum - 1000| ≤ 1000 * (1/1000000) ∧
     ((calculateLoanDetails "annuity" 12 1 1000).amortization.getLast?).map
        AmortizationEntry.balance = some 0) :=
  ⟨by norm_num, by norm_num, by norm_num,
   annuity_principal_conservation 1000 12 1 (by norm_num) (by norm_num) (by norm_num)⟩

/-- C2.  At annual rate 0 the annuity branch genuinely divides by zero: the
denominator `(1 + 0/100/12)^n - 1` of the closed-form payment is `0`.  In
the exact-rational model (where `x / 0 = 0`) the resulting `firstMonthPayment`
is `0`; in JS it is `0/0 = NaN`, which poisons the whole schedule.  Either
way it is NOT `principal / numberOfPayments` (`1 200 000 / 120 = 10 000 ≠ 0`)
as the specification requires — the code lacks the zero-rate guard that
`calculateAffordability` has. -/
theorem annuity_zero_rate_division_by_zero :
    (1 + (0 : ℚ) / 100 / 12) ^ (10 * 12) - 1 = 0 ∧
    (calculateLoanDetails "annuity" 0 10 1200000).firstMonthPayment = 0 ∧
    (1200000 : ℚ) / ((10 * 12 : ℕ) : ℚ) = 10000 ∧ (10000 : ℚ) ≠ 0 := by
  refine ⟨by norm_num, ?_, by norm_num, by norm_num⟩
  rw [calculateLoanDetails_annuity 0 10 1200000 (by norm_num)]
  dsimp only
  rw [annuityPayment]
  norm_num

/-- C3.  For identical principal `> 0`, rate `≥ 0`, and term, the serial
total interest never exceeds the annuity total interest, with equality
exactly at rate zero.  (At rate zero both model totals are `0`; in actual JS
the annuity branch produces `NaN` there, see the C2 theorem.) -/
theorem serial_interest_le_annuity_interest (P ir : ℚ) (T : ℕ) (hP : 0 < P)
    (hr : 0 ≤ ir) (hT : 0 < T) :
    (calculateLoanDetails "serial" ir T P).totalInterestPaid ≤
      (calculateLoanDetails "annuity" ir T P).totalInterestPaid ∧
    ((calculateLoanDetails "serial" ir T P).totalInterestPaid =
        (calculateLoanDetails "annuity" ir T P).totalInterestPaid ↔ ir = 0) := by
  rcases eq_or_lt_of_le hr with rfl | hir
  · have hra : (0 : ℚ) / 100 / 12 = 0 := by norm_num
    have hpos : ∀ j, j < T * 12 → 0 < annuityBal (0 / 100 / 12)
        (annuityPayment P (0 / 100 / 12) (T * 12)) P j := by
      intro j _
      rw [hra, annuityPayment_zero_rate, annuityBal_zero_rate]
      exact hP
    rw [serialTotalInterest_eq P 0 T hP, annuityTotalInterest_eq P 0 T hP hpos]
    simp [hra]
  · have hr' : 0 < ir / 100 / 12 := by positivity
    have hn : T * 12 ≠ 0 := by omega
    have hpos : ∀ j, j < T * 12 → 0 < annuityBal (ir / 100 / 12)
        (annuityPayment P (ir / 100 / 12) (T * 12)) P j :=
      fun j hj => annuityBal_pos_of_lt _ P hr' hP _ hn j hj
    rw [serialTotalInterest_eq P ir T hP, annuityTotalInterest_eq P ir T hP hpos]
    have hstrict : ∑ j ∈ Finset.range (T * 12),
        (P - (j : ℚ) * (P / ((T * 12 : ℕ) : ℚ))) * (ir / 100 / 12) <
        ∑ j ∈ Finset.range (T * 12),
          annuityBal (ir / 100 / 12) (annuityPayment P (ir / 100 / 12) (T * 12)) P j *
            (ir / 100 / 12) := by
      apply Finset.sum_lt_sum
      · intro j hj
        exact mul_le_mul_of_nonneg_right
          (serial_bal_le_annuity_bal P (ir / 100 / 12) hP hr' (T * 12) hn j
            (Finset.mem_range.mp hj)) hr'.le
      · refine ⟨1, Finset.mem_range.mpr (by omega), ?_⟩
        exact mul_lt_mul_of_pos_right
          (serial_bal_lt_annuity_bal P (ir / 100 / 12) hP hr' (T * 12) hn 1 (by omega)
            one_ne_zero) hr'
    refine ⟨hstrict.le, ?_⟩
    constructor
    · intro h
      exact absurd h hstrict.ne
    · intro h
      exact absurd h hir.ne'

/-- C3 witness: `P = 1200`, annual rate `12 %`, term 1 year. -/
theorem serial_interest_le_annuity_interest_witness :
    0 < (1200 : ℚ) ∧ (0 : ℚ) ≤ 12 ∧ 0 < 1 ∧
    ((calculateLoanDetails "serial" 12 1 1200).totalInterestPaid ≤
      (calculateLoanDetails "annuity" 12 1 1200).totalInterestPaid ∧
     ((calculateLoanDetails "serial" 12 1 1200).totalInterestPaid =
        (calculateLoanDetails "annuity" 12 1 1200).totalInterestPaid ↔ (12 : ℚ) = 0)) :=
  ⟨by norm_num, by norm_num, by norm_num,
   serial_interest_le_annuity_interest 1200 12 1 (by norm_num) (by norm_num) (by norm_num)⟩

end Lanekalkulator
